import Mathlib

/-!
Shallow embedding of the College Counselor scoring pipeline
(`src/api/college_counselor_api/counseling_wrapper.py`) and the student CRUD
endpoints (`src/api/college_counselor_api/app.py`).

Numeric scores are modelled as rationals; Python dictionaries with defaulted
`get` lookups are modelled as structures whose fields carry the default value
when absent (e.g. `average_gpa = 0` stands for a college without GPA data).
-/

/-- Student profile dictionary: fields read by the evaluators, with the
Python `get` defaults (0, empty list, empty string) standing for absence. -/
structure StudentProfile where
  gpa : ℚ
  intended_majors : List String
  location_preference : String
  size_preference : String
  setting_preference : String
  budget : ℚ
deriving Repr, DecidableEq

/-- College dictionary: fields read by the evaluators. `state` is
`college["location"]["state"]`, `cost_total` is `college["cost"]["total"]`,
`financial_aid` is `college["financial_aid"]["average_package"]`. -/
structure College where
  average_gpa : ℚ
  admission_rate : ℚ
  majors : List String
  state : String
  cost_total : ℚ
  financial_aid : ℚ
  enrollment : ℚ
  campus_setting : String
deriving Repr, DecidableEq

/-- A journal entry; only its `text` field is read by the evaluators. -/
structure JournalEntry where
  text : String
deriving Repr, DecidableEq

/-- Python substring test `needle in haystack` on strings. -/
def containsSub (haystack needle : String) : Bool :=
  haystack.toList.tails.any (fun t => needle.toList.isPrefixOf t)

/-- Python `str.lower()`: lower-case character by character. -/
def pyLower (s : String) : String := ⟨s.data.map Char.toLower⟩

/-- Python `str.upper()`: upper-case character by character. -/
def pyUpper (s : String) : String := ⟨s.data.map Char.toUpper⟩

namespace GPAEvaluator

/-- `GPAEvaluator.evaluate`: threshold table on the GPA difference, 50 when
the college has no GPA data. -/
def evaluate (student_profile : StudentProfile) (college : College) : ℚ :=
  let student_gpa := student_profile.gpa
  let college_avg_gpa := college.average_gpa
  if college_avg_gpa = 0 then 50
  else
    let diff := student_gpa - college_avg_gpa
    if diff ≥ 0.5 then 90
    else if diff ≥ 0.3 then 80
    else if diff ≥ 0 then 70
    else if diff ≥ -0.3 then 60
    else if diff ≥ -0.5 then 40
    else 20

end GPAEvaluator

namespace MajorMatchEvaluator

/-- `MajorMatchEvaluator.evaluate`: 50 when either major list is empty,
otherwise 100 / 70 / 30 by how many intended majors the college offers. -/
def evaluate (student_profile : StudentProfile) (college : College) : ℚ :=
  let student_majors := student_profile.intended_majors
  let college_majors := college.majors
  if student_majors.isEmpty || college_majors.isEmpty then 50
  else
    let matchCount := (student_majors.filter (fun major => college_majors.contains major)).length
    if matchCount = student_majors.length then 100
    else if matchCount > 0 then 70
    else 30

end MajorMatchEvaluator

def northeast : List String := ["ME", "NH", "VT", "MA", "RI", "CT", "NY", "NJ", "PA"]
def midwest : List String := ["OH", "MI", "IN", "IL", "WI", "MN", "IA", "MO", "ND", "SD", "NE", "KS"]
def south : List String := ["DE", "MD", "DC", "VA", "WV", "NC", "SC", "GA", "FL", "KY", "TN", "AL", "MS", "AR", "LA", "OK", "TX"]
def west : List String := ["MT", "ID", "WY", "CO", "NM", "AZ", "UT", "NV", "WA", "OR", "CA", "AK", "HI"]

/-- The `regions` dictionary: region name to member states. -/
def regionStates (region : String) : Option (List String) :=
  if region = "northeast" then some northeast
  else if region = "midwest" then some midwest
  else if region = "south" then some south
  else if region = "west" then some west
  else none

/-- The region containing a state (the region lists are pairwise disjoint,
so the dictionary-iteration order in the source does not matter). -/
def stateRegion (st : String) : Option String :=
  if northeast.contains st then some "northeast"
  else if midwest.contains st then some "midwest"
  else if south.contains st then some "south"
  else if west.contains st then some "west"
  else none

namespace LocationPreferenceEvaluator

/-- `LocationPreferenceEvaluator.evaluate`: 50 on missing data, 100 on exact
state match, 80 when the preference is a region containing the state, 70 when
both lie in the same region, else 30. -/
def evaluate (student_profile : StudentProfile) (college : College) : ℚ :=
  let student_location := student_profile.location_preference
  let college_state := college.state
  if student_location = "" || college_state = "" then 50
  else if pyLower student_location = pyLower college_state then 100
  else
    let regionHit : Bool :=
      match regionStates (pyLower student_location) with
      | some states => states.contains (pyUpper college_state)
      | none => false
    if regionHit then 80
    else
      match stateRegion (pyUpper student_location), stateRegion (pyUpper college_state) with
      | some student_region, some college_region =>
          if student_region = college_region then 70 else 30
      | _, _ => 30

end LocationPreferenceEvaluator

def positive_words : List String :=
  ["happy", "excited", "confident", "hopeful", "good", "great", "excellent"]
def negative_words : List String :=
  ["sad", "anxious", "worried", "stressed", "bad", "terrible", "awful"]

namespace SentimentEvaluator

/-- `SentimentEvaluator.evaluate`: keyword counting over the lower-cased text;
50 when no keyword of either list occurs, else the positive ratio on a 0-100
scale. -/
def evaluate (entry : JournalEntry) : ℚ :=
  let text := pyLower entry.text
  let positive_count := (positive_words.filter (fun word => containsSub text word)).length
  let negative_count := (negative_words.filter (fun word => containsSub text word)).length
  if positive_count = 0 ∧ negative_count = 0 then 50
  else
    let total := positive_count + negative_count
    let positive_ratio : ℚ := if total > 0 then (positive_count : ℚ) / (total : ℚ) else 0.5
    positive_ratio * 100

end SentimentEvaluator

def uncertainty_words : List String :=
  ["maybe", "perhaps", "not sure", "uncertain", "doubt", "confused", "unsure", "might", "could"]
def certainty_words : List String :=
  ["definitely", "certainly", "sure", "know", "confident", "absolutely", "without doubt"]

namespace UncertaintyEvaluator

/-- `UncertaintyEvaluator.evaluate`: 50 when no keyword occurs, else the
certainty ratio on a 0-100 scale (0 = highly uncertain, 100 = certain). -/
def evaluate (entry : JournalEntry) : ℚ :=
  let text := pyLower entry.text
  let uncertainty_count := (uncertainty_words.filter (fun word => containsSub text word)).length
  let certainty_count := (certainty_words.filter (fun word => containsSub text word)).length
  if uncertainty_count = 0 ∧ certainty_count = 0 then 50
  else
    let total := uncertainty_count + certainty_count
    let certainty_ratio : ℚ := if total > 0 then (certainty_count : ℚ) / (total : ℚ) else 0.5
    certainty_ratio * 100

end UncertaintyEvaluator

def agitation_words : List String :=
  ["angry", "frustrated", "upset", "annoyed", "mad", "furious", "stressed", "overwhelmed"]
def calm_words : List String :=
  ["calm", "relaxed", "peaceful", "serene", "tranquil", "composed", "collected"]

namespace AgitationEvaluator

/-- `AgitationEvaluator.evaluate`: 50 when no keyword occurs, else the calm
ratio on a 0-100 scale (0 = highly agitated, 100 = calm). -/
def evaluate (entry : JournalEntry) : ℚ :=
  let text := pyLower entry.text
  let agitation_count := (agitation_words.filter (fun word => containsSub text word)).length
  let calm_count := (calm_words.filter (fun word => containsSub text word)).length
  if agitation_count = 0 ∧ calm_count = 0 then 50
  else
    let total := agitation_count + calm_count
    let calm_ratio : ℚ := if total > 0 then (calm_count : ℚ) / (total : ℚ) else 0.5
    calm_ratio * 100

end AgitationEvaluator

namespace AcademicProfileFactor

/-- `AcademicProfileFactor.evaluate`: weighted average of the GPA, major-match
and location sub-scores (weights 0.5 / 0.3 / 0.2). -/
def score (student_profile : StudentProfile) (college : College) : ℚ :=
  let gpa_score := GPAEvaluator.evaluate student_profile college
  let major_match_score := MajorMatchEvaluator.evaluate student_profile college
  let location_score := LocationPreferenceEvaluator.evaluate student_profile college
  gpa_score * 0.5 + major_match_score * 0.3 + location_score * 0.2

end AcademicProfileFactor

/-- The score and `explanation["components"]` of `EmotionalStateFactor.evaluate`. -/
structure EmotionalStateResult where
  score : ℚ
  sentiment : ℚ
  uncertainty : ℚ
  agitation : ℚ
deriving Repr, DecidableEq

namespace EmotionalStateFactor

/-- `EmotionalStateFactor.evaluate`: score 100 (components all 100) when there
are no journal entries; otherwise the weighted average (0.4 / 0.3 / 0.3) of
the sentiment, uncertainty and agitation scores of the most recent entry. -/
def evaluate (journal_entries : List JournalEntry) : EmotionalStateResult :=
  match journal_entries.getLast? with
  | none => ⟨100, 100, 100, 100⟩
  | some latest_entry =>
    let sentiment_score := SentimentEvaluator.evaluate latest_entry
    let uncertainty_score := UncertaintyEvaluator.evaluate latest_entry
    let agitation_score := AgitationEvaluator.evaluate latest_entry
    ⟨sentiment_score * 0.4 + uncertainty_score * 0.3 + agitation_score * 0.3,
     sentiment_score, uncertainty_score, agitation_score⟩

end EmotionalStateFactor

namespace AdmissionLikelihoodEvaluator

/-- `AdmissionLikelihoodEvaluator.evaluate`: threshold table on the GPA
difference, then blended 70/30 with `admission_rate * 100` when the rate is
positive. -/
def evaluate (student_profile : StudentProfile) (college : College) : ℚ :=
  let student_gpa := student_profile.gpa
  let college_avg_gpa := college.average_gpa
  let admission_rate := college.admission_rate
  if college_avg_gpa = 0 then 50
  else
    let gpa_diff := student_gpa - college_avg_gpa
    let base_score : ℚ :=
      if gpa_diff ≥ 0.5 then 90
      else if gpa_diff ≥ 0.3 then 80
      else if gpa_diff ≥ 0 then 70
      else if gpa_diff ≥ -0.3 then 50
      else if gpa_diff ≥ -0.5 then 30
      else 10
    if admission_rate > 0 then
      let admission_factor := admission_rate * 100
      base_score * 0.7 + admission_factor * 0.3
    else base_score

end AdmissionLikelihoodEvaluator

namespace SchoolFitEvaluator

/-- `SchoolFitEvaluator.evaluate`: size-preference and setting-preference
matches, each defaulting to 50, averaged 50/50. -/
def evaluate (student_profile : StudentProfile) (college : College) : ℚ :=
  let size_preference := student_profile.size_preference
  let enrollment := college.enrollment
  let size_score : ℚ :=
    if size_preference ≠ "" ∧ enrollment > 0 then
      if size_preference = "small" ∧ enrollment < 5000 then 90
      else if size_preference = "medium" ∧ 5000 ≤ enrollment ∧ enrollment < 15000 then 90
      else if size_preference = "large" ∧ enrollment ≥ 15000 then 90
      else if size_preference = "small" ∧ enrollment ≥ 15000 then 10
      else if size_preference = "large" ∧ enrollment < 5000 then 10
      else 50
    else 50
  let setting_preference := student_profile.setting_preference
  let campus_setting := college.campus_setting
  let setting_score : ℚ :=
    if setting_preference ≠ "" ∧ campus_setting ≠ "" then
      if pyLower setting_preference = pyLower campus_setting then 90 else 30
    else 50
  size_score * 0.5 + setting_score * 0.5

end SchoolFitEvaluator

namespace CollegeMatchFactor

/-- `CollegeMatchFactor.evaluate`: weighted average of admission likelihood
and school fit (weights 0.6 / 0.4). -/
def score (student_profile : StudentProfile) (college : College) : ℚ :=
  let admission_score := AdmissionLikelihoodEvaluator.evaluate student_profile college
  let fit_score := SchoolFitEvaluator.evaluate student_profile college
  admission_score * 0.6 + fit_score * 0.4

end CollegeMatchFactor

namespace CostEvaluator

/-- `CostEvaluator.evaluate`: 50 on missing budget or cost, else a threshold
table on the budget/cost ratio. -/
def evaluate (student_profile : StudentProfile) (college : College) : ℚ :=
  let student_budget := student_profile.budget
  let college_cost := college.cost_total
  if student_budget = 0 ∨ college_cost = 0 then 50
  else
    let ratio : ℚ := if college_cost > 0 then student_budget / college_cost else 1
    if ratio ≥ 1.2 then 100
    else if ratio ≥ 1 then 90
    else if ratio ≥ 0.8 then 70
    else if ratio ≥ 0.6 then 50
    else if ratio ≥ 0.4 then 30
    else 10

end CostEvaluator

namespace AffordabilityEvaluator

/-- `AffordabilityEvaluator.evaluate`: like `CostEvaluator` but on the cost
adjusted by the average financial-aid package. -/
def evaluate (student_profile : StudentProfile) (college : College) : ℚ :=
  let student_budget := student_profile.budget
  let college_cost := college.cost_total
  let financial_aid := college.financial_aid
  if student_budget = 0 ∨ college_cost = 0 then 50
  else
    let adjusted_cost := if financial_aid > 0 then college_cost - financial_aid else college_cost
    let ratio : ℚ := if adjusted_cost > 0 then student_budget / adjusted_cost else 1
    if ratio ≥ 1.2 then 100
    else if ratio ≥ 1 then 90
    else if ratio ≥ 0.8 then 70
    else if ratio ≥ 0.6 then 50
    else if ratio ≥ 0.4 then 30
    else 10

end AffordabilityEvaluator

namespace BudgetAlignmentFactor

/-- `BudgetAlignmentFactor.evaluate`: weighted average of cost match and
affordability (weights 0.7 / 0.3). -/
def score (student_profile : StudentProfile) (college : College) : ℚ :=
  let cost_score := CostEvaluator.evaluate student_profile college
  let affordability_score := AffordabilityEvaluator.evaluate student_profile college
  cost_score * 0.7 + affordability_score * 0.3

end BudgetAlignmentFactor

/-- The result dictionary of `TrustEvaluationFramework.evaluate`: the overall
score, the category, the four factor scores (with the emotional components),
and the halt flag. -/
structure TrustEvaluation where
  overall_score : ℚ
  category : String
  academic_profile_score : ℚ
  emotional : EmotionalStateResult
  college_match_score : ℚ
  budget_alignment_score : ℚ
  halt_recommended : Bool
deriving Repr, DecidableEq

namespace TrustEvaluationFramework

/-- `TrustEvaluationFramework._determine_category`: reach/target/safety from
the GPA delta; the `overall_score` argument is received but never read. -/
def determine_category (overall_score : ℚ) (student_profile : StudentProfile)
    (college : College) : String :=
  let student_gpa := student_profile.gpa
  let college_avg_gpa := college.average_gpa
  if student_gpa < college_avg_gpa - 0.3 then "reach"
  else if student_gpa > college_avg_gpa + 0.3 then "safety"
  else "target"

/-- `TrustEvaluationFramework._check_for_halt`: halt iff the emotional-state
factor score is below 30. -/
def check_for_halt (emotional_score : ℚ) : Bool :=
  decide (emotional_score < 30)

/-- `TrustEvaluationFramework.evaluate`: runs the four factors (weights 1.0,
1.2, 1.0, 0.8), normalizes the weighted sum, determines the category and the
halt flag. -/
def evaluate (student_profile : StudentProfile) (college : College)
    (journal_entries : List JournalEntry) : TrustEvaluation :=
  let academic := AcademicProfileFactor.score student_profile college
  let emotional := EmotionalStateFactor.evaluate journal_entries
  let college_match := CollegeMatchFactor.score student_profile college
  let budget := BudgetAlignmentFactor.score student_profile college
  let weighted_sum :=
    academic * 1.0 + emotional.score * 1.2 + college_match * 1.0 + budget * 0.8
  let total_weight : ℚ := 1.0 + 1.2 + 1.0 + 0.8
  let overall_score := if total_weight > 0 then weighted_sum / total_weight else 0
  { overall_score := overall_score
    category := determine_category overall_score student_profile college
    academic_profile_score := academic
    emotional := emotional
    college_match_score := college_match
    budget_alignment_score := budget
    halt_recommended := check_for_halt emotional.score }

end TrustEvaluationFramework

/-! API layer (`app.py`): the in-memory `students` / `journal_entries`
dictionaries and the student create / fetch handlers. A Python dict is
modelled as an association list with unique keys: assignment replaces an
existing binding in place or appends a new one, lookup scans for the key. -/

/-- The student record built by `create_student` and stored in `students`. -/
structure StudentRecord where
  id : String
  name : String
  gpa : ℚ
  intended_majors : List String
  location_preference : String
  budget : ℚ
  created_at : String
deriving Repr, DecidableEq

/-- The JSON body of `POST /api/students`: each field optional, with the
`data.get(...)` defaults applied by the handler. -/
structure StudentData where
  name : Option String
  gpa : Option ℚ
  intended_majors : Option (List String)
  location_preference : Option String
  budget : Option ℚ
deriving Repr, DecidableEq

/-- Python dict assignment `d[k] = v`: replace the binding in place when the
key is present, append otherwise (insertion order preserved). -/
def dictInsert {α : Type} (d : List (String × α)) (k : String) (v : α) :
    List (String × α) :=
  match d with
  | [] => [(k, v)]
  | (k', v') :: rest =>
    if k' = k then (k, v) :: rest else (k', v') :: dictInsert rest k v

/-- Python dict lookup `d[k]` / `k in d`. -/
def dictGet {α : Type} (d : List (String × α)) (k : String) : Option α :=
  (d.find? (fun p => p.1 = k)).map Prod.snd

/-- The module-level in-memory storage of `app.py` used by the student
endpoints. -/
structure ApiState where
  students : List (String × StudentRecord)
  journal_entries : List (String × List JournalEntry)
deriving Repr

/-- Result of a handler returning a student object: HTTP status, the student
body on success (`none` on the error branch), and the storage afterwards. -/
structure StudentResponse where
  status : Nat
  body : Option StudentRecord
  state : ApiState
deriving Repr

/-- `GET /api/students/{id}`: 404 when the id is absent, else 200 with the
stored record (the state is untouched). -/
def get_student (st : ApiState) (student_id : String) : StudentResponse :=
  match dictGet st.students student_id with
  | none => ⟨404, none, st⟩
  | some student => ⟨200, some student, st⟩

/-- `POST /api/students`: 400 when no body is provided, else builds the record
with id `str(len(students) + 1)`, stores it, initializes the journal list,
and returns 201 with the record. `ts` stands for
`counseling_wrapper.get_timestamp()` (wall clock, passed in explicitly). -/
def create_student (st : ApiState) (data : Option StudentData) (ts : String) :
    StudentResponse :=
  match data with
  | none => ⟨400, none, st⟩
  | some data =>
    let student_id := toString (st.students.length + 1)
    let record : StudentRecord :=
      { id := student_id
        name := data.name.getD ""
        gpa := data.gpa.getD 0
        intended_majors := data.intended_majors.getD []
        location_preference := data.location_preference.getD ""
        budget := data.budget.getD 0
        created_at := ts }
    ⟨201, some record,
      { students := dictInsert st.students student_id record
        journal_entries := dictInsert st.journal_entries student_id [] }⟩

/-! Auxiliary predicates and concrete instances used by the theorems below. -/

/-- A score in the documented interval `[0, 100]`. -/
def inRange (x : ℚ) : Prop := 0 ≤ x ∧ x ≤ 100

/-- Every sub-evaluator score and every factor score produced during
`TrustEvaluationFramework.evaluate` lies in `[0, 100]`. The emotional
components of the result are exactly the sub-scores of the most recent
journal entry (or the 100 defaults), so they cover the journal-side
sub-evaluators. -/
def scoresInRange (s : StudentProfile) (c : College) (j : List JournalEntry) : Prop :=
  inRange (GPAEvaluator.evaluate s c) ∧
  inRange (MajorMatchEvaluator.evaluate s c) ∧
  inRange (LocationPreferenceEvaluator.evaluate s c) ∧
  inRange (AdmissionLikelihoodEvaluator.evaluate s c) ∧
  inRange (SchoolFitEvaluator.evaluate s c) ∧
  inRange (CostEvaluator.evaluate s c) ∧
  inRange (AffordabilityEvaluator.evaluate s c) ∧
  inRange (TrustEvaluationFramework.evaluate s c j).emotional.sentiment ∧
  inRange (TrustEvaluationFramework.evaluate s c j).emotional.uncertainty ∧
  inRange (TrustEvaluationFramework.evaluate s c j).emotional.agitation ∧
  inRange (TrustEvaluationFramework.evaluate s c j).academic_profile_score ∧
  inRange (TrustEvaluationFramework.evaluate s c j).emotional.score ∧
  inRange (TrustEvaluationFramework.evaluate s c j).college_match_score ∧
  inRange (TrustEvaluationFramework.evaluate s c j).budget_alignment_score

/-- A concrete student: GPA 3.8, from the spec's worked example. -/
def sampleStudent : StudentProfile :=
  { gpa := 3.8, intended_majors := ["CS"], location_preference := "CA"
    size_preference := "small", setting_preference := "urban", budget := 30000 }

/-- A second student agreeing with `sampleStudent` on GPA only. -/
def sampleStudentB : StudentProfile :=
  { gpa := 3.8, intended_majors := [], location_preference := "TX"
    size_preference := "large", setting_preference := "rural", budget := 5 }

/-- A student with GPA 3.9, above `sampleStudent`. -/
def sampleStudentC : StudentProfile :=
  { gpa := 3.9, intended_majors := ["CS"], location_preference := "CA"
    size_preference := "small", setting_preference := "urban", budget := 30000 }

/-- A student/college pair with all data missing (Python `get` defaults). -/
def emptyStudent : StudentProfile :=
  { gpa := 0, intended_majors := [], location_preference := ""
    size_preference := "", setting_preference := "", budget := 0 }

/-- A concrete college: average GPA 3.3, admission rate 0.5. -/
def sampleCollege : College :=
  { average_gpa := 3.3, admission_rate := 0.5, majors := ["CS", "Math"]
    state := "CA", cost_total := 40000, financial_aid := 10000
    enrollment := 4000, campus_setting := "urban" }

/-- A second college agreeing with `sampleCollege` on average GPA only. -/
def sampleCollegeB : College :=
  { average_gpa := 3.3, admission_rate := 0.9, majors := []
    state := "NY", cost_total := 1, financial_aid := 0
    enrollment := 20000, campus_setting := "rural" }

/-- A college with all data missing. -/
def emptyCollege : College :=
  { average_gpa := 0, admission_rate := 0, majors := [], state := ""
    cost_total := 0, financial_aid := 0, enrollment := 0, campus_setting := "" }

/-- A college with an out-of-range admission rate of 2 (rates in the mock
catalog are fractions in `[0, 1]`). -/
def badRateCollege : College :=
  { average_gpa := 3.0, admission_rate := 2, majors := [], state := ""
    cost_total := 0, financial_aid := 0, enrollment := 0, campus_setting := "" }

/-- A journal entry with positive sentiment keywords. -/
def happyEntry : JournalEntry := ⟨"I am happy and excited today"⟩

/-- A journal entry matching no keyword of any list. -/
def blandEntry : JournalEntry := ⟨"zzz qqq"⟩

/-- A concrete request body for `POST /api/students`. -/
def sampleCreateData : StudentData :=
  { name := some "Ada", gpa := some 3.9, intended_majors := some ["Math"]
    location_preference := some "MA", budget := some 20000 }

/-! Range lemmas for the individual evaluators. -/

lemma gpa_in_range (s : StudentProfile) (c : College) :
    inRange (GPAEvaluator.evaluate s c) := by
  unfold inRange GPAEvaluator.evaluate
  dsimp only
  split_ifs <;> norm_num

lemma major_in_range (s : StudentProfile) (c : College) :
    inRange (MajorMatchEvaluator.evaluate s c) := by
  unfold inRange MajorMatchEvaluator.evaluate
  dsimp only
  split_ifs <;> norm_num

lemma location_in_range (s : StudentProfile) (c : College) :
    inRange (LocationPreferenceEvaluator.evaluate s c) := by
  unfold inRange LocationPreferenceEvaluator.evaluate
  dsimp only
  split_ifs <;> try norm_num
  rcases stateRegion (pyUpper s.location_preference) with _ | r <;>
    rcases stateRegion (pyUpper c.state) with _ | r' <;>
    dsimp only <;> (try split_ifs) <;> norm_num

lemma admission_in_range (s : StudentProfile) (c : College)
    (h : c.admission_rate ≤ 1) :
    inRange (AdmissionLikelihoodEvaluator.evaluate s c) := by
  unfold inRange AdmissionLikelihoodEvaluator.evaluate
  dsimp only
  split_ifs <;> constructor <;> linarith

lemma fit_in_range (s : StudentProfile) (c : College) :
    inRange (SchoolFitEvaluator.evaluate s c) := by
  unfold inRange SchoolFitEvaluator.evaluate
  dsimp only
  split_ifs <;> norm_num

lemma cost_in_range (s : StudentProfile) (c : College) :
    inRange (CostEvaluator.evaluate s c) := by
  unfold inRange CostEvaluator.evaluate
  dsimp only
  split_ifs <;> norm_num

lemma affordability_in_range (s : StudentProfile) (c : College) :
    inRange (AffordabilityEvaluator.evaluate s c) := by
  unfold inRange AffordabilityEvaluator.evaluate
  dsimp only
  split_ifs <;> norm_num

lemma ratio_score_in_range (p t : ℕ) (hpt : p ≤ t) (ht : 0 < t) :
    inRange ((p : ℚ) / (t : ℚ) * 100) := by
  have ht' : (0 : ℚ) < (t : ℚ) := by exact_mod_cast ht
  have h1 : (p : ℚ) / (t : ℚ) ≤ 1 := by
    rw [div_le_one ht']
    exact_mod_cast hpt
  have h0 : (0 : ℚ) ≤ (p : ℚ) / (t : ℚ) := by positivity
  exact ⟨by linarith, by linarith⟩

lemma sentiment_in_range (e : JournalEntry) :
    inRange (SentimentEvaluator.evaluate e) := by
  unfold SentimentEvaluator.evaluate
  dsimp only
  split_ifs with h1 h2
  · exact ⟨by norm_num, by norm_num⟩
  · exact ratio_score_in_range _ _ (Nat.le_add_right _ _) h2
  · exact ⟨by norm_num, by norm_num⟩

lemma uncertainty_in_range (e : JournalEntry) :
    inRange (UncertaintyEvaluator.evaluate e) := by
  unfold UncertaintyEvaluator.evaluate
  dsimp only
  split_ifs with h1 h2
  · exact ⟨by norm_num, by norm_num⟩
  · exact ratio_score_in_range _ _ (Nat.le_add_left _ _) h2
  · exact ⟨by norm_num, by norm_num⟩

lemma agitation_in_range (e : JournalEntry) :
    inRange (AgitationEvaluator.evaluate e) := by
  unfold AgitationEvaluator.evaluate
  dsimp only
  split_ifs with h1 h2
  · exact ⟨by norm_num, by norm_num⟩
  · exact ratio_score_in_range _ _ (Nat.le_add_left _ _) h2
  · exact ⟨by norm_num, by norm_num⟩

lemma emotional_in_range (j : List JournalEntry) :
    inRange (EmotionalStateFactor.evaluate j).score ∧
    inRange (EmotionalStateFactor.evaluate j).sentiment ∧
    inRange (EmotionalStateFactor.evaluate j).uncertainty ∧
    inRange (EmotionalStateFactor.evaluate j).agitation := by
  unfold inRange EmotionalStateFactor.evaluate
  cases hj : j.getLast? with
  | none => refine ⟨⟨?_, ?_⟩, ⟨?_, ?_⟩, ⟨?_, ?_⟩, ⟨?_, ?_⟩⟩ <;> norm_num
  | some e =>
    obtain ⟨hs0, hs1⟩ := sentiment_in_range e
    obtain ⟨hu0, hu1⟩ := uncertainty_in_range e
    obtain ⟨ha0, ha1⟩ := agitation_in_range e
    dsimp only
    exact ⟨⟨by linarith, by linarith⟩, ⟨hs0, hs1⟩, ⟨hu0, hu1⟩, ⟨ha0, ha1⟩⟩

lemma academic_in_range (s : StudentProfile) (c : College) :
    inRange (AcademicProfileFactor.score s c) := by
  obtain ⟨h1, h2⟩ := gpa_in_range s c
  obtain ⟨h3, h4⟩ := major_in_range s c
  obtain ⟨h5, h6⟩ := location_in_range s c
  unfold inRange AcademicProfileFactor.score
  dsimp only
  exact ⟨by linarith, by linarith⟩

lemma college_match_in_range (s : StudentProfile) (c : College)
    (h : c.admission_rate ≤ 1) :
    inRange (CollegeMatchFactor.score s c) := by
  obtain ⟨h1, h2⟩ := admission_in_range s c h
  obtain ⟨h3, h4⟩ := fit_in_range s c
  unfold inRange CollegeMatchFactor.score
  dsimp only
  exact ⟨by linarith, by linarith⟩

lemma budget_in_range (s : StudentProfile) (c : College) :
    inRange (BudgetAlignmentFactor.score s c) := by
  obtain ⟨h1, h2⟩ := cost_in_range s c
  obtain ⟨h3, h4⟩ := affordability_in_range s c
  unfold inRange BudgetAlignmentFactor.score
  dsimp only
  exact ⟨by linarith, by linarith⟩

/-! Unfolding lemmas for the fields of `TrustEvaluationFramework.evaluate`. -/

lemma evaluate_academic (s : StudentProfile) (c : College) (j : List JournalEntry) :
    (TrustEvaluationFramework.evaluate s c j).academic_profile_score =
      AcademicProfileFactor.score s c := rfl

lemma evaluate_emotional (s : StudentProfile) (c : College) (j : List JournalEntry) :
    (TrustEvaluationFramework.evaluate s c j).emotional =
      EmotionalStateFactor.evaluate j := rfl

lemma evaluate_college_match (s : StudentProfile) (c : College) (j : List JournalEntry) :
    (TrustEvaluationFramework.evaluate s c j).college_match_score =
      CollegeMatchFactor.score s c := rfl

lemma evaluate_budget (s : StudentProfile) (c : College) (j : List JournalEntry) :
    (TrustEvaluationFramework.evaluate s c j).budget_alignment_score =
      BudgetAlignmentFactor.score s c := rfl

lemma evaluate_halt (s : StudentProfile) (c : College) (j : List JournalEntry) :
    (TrustEvaluationFramework.evaluate s c j).halt_recommended =
      decide ((EmotionalStateFactor.evaluate j).score < 30) := rfl

lemma evaluate_category (s : StudentProfile) (c : College) (j : List JournalEntry) :
    (TrustEvaluationFramework.evaluate s c j).category =
      (if s.gpa < c.average_gpa - 0.3 then "reach"
       else if s.gpa > c.average_gpa + 0.3 then "safety"
       else "target") := rfl

lemma evaluate_overall (s : StudentProfile) (c : College) (j : List JournalEntry) :
    (TrustEvaluationFramework.evaluate s c j).overall_score =
      (AcademicProfileFactor.score s c * 1.0 +
       (EmotionalStateFactor.evaluate j).score * 1.2 +
       CollegeMatchFactor.score s c * 1.0 +
       BudgetAlignmentFactor.score s c * 0.8) / (1.0 + 1.2 + 1.0 + 0.8) := by
  unfold TrustEvaluationFramework.evaluate
  dsimp only
  rw [if_pos (by norm_num : (1.0 + 1.2 + 1.0 + 0.8 : ℚ) > 0)]

lemma weighted_avg_between (a e m b : ℚ) :
    min (min a e) (min m b) ≤
      (a * 1.0 + e * 1.2 + m * 1.0 + b * 0.8) / (1.0 + 1.2 + 1.0 + 0.8) ∧
    (a * 1.0 + e * 1.2 + m * 1.0 + b * 0.8) / (1.0 + 1.2 + 1.0 + 0.8) ≤
      max (max a e) (max m b) := by
  have h4 : (0 : ℚ) < 1.0 + 1.2 + 1.0 + 0.8 := by norm_num
  have hma : min (min a e) (min m b) ≤ a := (min_le_left _ _).trans (min_le_left _ _)
  have hme : min (min a e) (min m b) ≤ e := (min_le_left _ _).trans (min_le_right _ _)
  have hmm : min (min a e) (min m b) ≤ m := (min_le_right _ _).trans (min_le_left _ _)
  have hmb : min (min a e) (min m b) ≤ b := (min_le_right _ _).trans (min_le_right _ _)
  have hxa : a ≤ max (max a e) (max m b) := (le_max_left _ _).trans (le_max_left _ _)
  have hxe : e ≤ max (max a e) (max m b) := (le_max_right _ _).trans (le_max_left _ _)
  have hxm : m ≤ max (max a e) (max m b) := (le_max_left _ _).trans (le_max_right _ _)
  have hxb : b ≤ max (max a e) (max m b) := (le_max_right _ _).trans (le_max_right _ _)
  constructor
  · rw [le_div_iff₀ h4]; linarith
  · rw [div_le_iff₀ h4]; linarith

lemma dictGet_dictInsert {α : Type} (d : List (String × α)) (k : String) (v : α) :
    dictGet (dictInsert d k v) k = some v := by
  induction d with
  | nil => simp [dictInsert, dictGet, List.find?]
  | cons p rest ih =>
    obtain ⟨k', v'⟩ := p
    by_cases h : k' = k
    · simp [dictInsert, dictGet, h, List.find?]
    · simp only [dictInsert, if_neg h]
      simp only [dictGet] at ih ⊢
      rw [List.find?_cons_of_neg _ (by simpa using h)]
      exact ih

/-! The claims. -/

/-- C1: `TrustEvaluationFramework.evaluate` runs the four factors with
weights academic 1.0, emotional 1.2, college-match 1.0, budget 0.8, and its
`overall_score` is the weighted sum of the factor scores divided by the total
weight 4.0. -/
theorem C1_overall_score_weighted_average (s : StudentProfile) (c : College)
    (j : List JournalEntry) :
    (TrustEvaluationFramework.evaluate s c j).overall_score =
      ((TrustEvaluationFramework.evaluate s c j).academic_profile_score * 1.0 +
       (TrustEvaluationFramework.evaluate s c j).emotional.score * 1.2 +
       (TrustEvaluationFramework.evaluate s c j).college_match_score * 1.0 +
       (TrustEvaluationFramework.evaluate s c j).budget_alignment_score * 0.8) / 4.0 := by
  rw [evaluate_overall, evaluate_academic, evaluate_emotional,
    evaluate_college_match, evaluate_budget]
  norm_num

/-- C2: the `halt_recommended` flag of `TrustEvaluationFramework.evaluate` is
true iff the emotional-state factor score of the same result is strictly
below 30. -/
theorem C2_halt_iff_emotional_below_30 (s : StudentProfile) (c : College)
    (j : List JournalEntry) :
    (TrustEvaluationFramework.evaluate s c j).halt_recommended = true ↔
      (TrustEvaluationFramework.evaluate s c j).emotional.score < 30 := by
  rw [evaluate_halt, evaluate_emotional]
  exact decide_eq_true_iff

/-- C3: the category is "reach" when the student GPA is below the college
average minus 0.3, "safety" when above the average plus 0.3, else "target";
and it depends only on the pair (student GPA, college average GPA). -/
theorem C3_category_pure_gpa_delta (s sB : StudentProfile) (c cB : College)
    (j jB : List JournalEntry) (hg : s.gpa = sB.gpa)
    (ha : c.average_gpa = cB.average_gpa) :
    ((TrustEvaluationFramework.evaluate s c j).category =
      (if s.gpa < c.average_gpa - 0.3 then "reach"
       else if s.gpa > c.average_gpa + 0.3 then "safety"
       else "target")) ∧
    (TrustEvaluationFramework.evaluate s c j).category =
      (TrustEvaluationFramework.evaluate sB cB jB).category := by
  refine ⟨evaluate_category s c j, ?_⟩
  rw [evaluate_category, evaluate_category, hg, ha]

/-- Witness for C3 at concrete inputs: two evaluations agreeing only on
(GPA, average GPA) produce the same category. -/
theorem C3_witness :
    ((TrustEvaluationFramework.evaluate sampleStudent sampleCollege []).category =
      (if sampleStudent.gpa < sampleCollege.average_gpa - 0.3 then "reach"
       else if sampleStudent.gpa > sampleCollege.average_gpa + 0.3 then "safety"
       else "target")) ∧
    (TrustEvaluationFramework.evaluate sampleStudent sampleCollege []).category =
      (TrustEvaluationFramework.evaluate sampleStudentB sampleCollegeB [happyEntry]).category :=
  C3_category_pure_gpa_delta sampleStudent sampleStudentB sampleCollege sampleCollegeB
    [] [happyEntry] rfl rfl

/-- C4 as stated is false: an out-of-range admission rate of 2 drives the
admission-likelihood sub-score to 123 > 100. -/
theorem C4_counterexample : ¬ scoresInRange sampleStudent badRateCollege [] := by
  intro h
  have h2 := h.2.2.2.1.2
  have hv : AdmissionLikelihoodEvaluator.evaluate sampleStudent badRateCollege = 123 := by
    norm_num [AdmissionLikelihoodEvaluator.evaluate, sampleStudent, badRateCollege]
  rw [hv] at h2
  norm_num at h2

/-- C4 (amended): when the college admission rate is at most 1, every
sub-evaluator score and every factor score produced during
`TrustEvaluationFramework.evaluate` lies in [0, 100]. -/
theorem C4_scores_in_range (s : StudentProfile) (c : College)
    (j : List JournalEntry) (h : c.admission_rate ≤ 1) :
    scoresInRange s c j := by
  obtain ⟨he, hs, hu, ha⟩ := emotional_in_range j
  exact ⟨gpa_in_range s c, major_in_range s c, location_in_range s c,
    admission_in_range s c h, fit_in_range s c, cost_in_range s c,
    affordability_in_range s c, hs, hu, ha, academic_in_range s c, he,
    college_match_in_range s c h, budget_in_range s c⟩

/-- Witness for C4 at concrete inputs with a valid admission rate. -/
theorem C4_witness :
    sampleCollege.admission_rate ≤ 1 ∧
      scoresInRange sampleStudent sampleCollege [happyEntry] :=
  ⟨by norm_num [sampleCollege],
   C4_scores_in_range sampleStudent sampleCollege [happyEntry]
     (by norm_num [sampleCollege])⟩

/-- C5: the overall score lies between the minimum and the maximum of the
four factor scores of the same result. -/
theorem C5_overall_between_min_max (s : StudentProfile) (c : College)
    (j : List JournalEntry) :
    min (min (TrustEvaluationFramework.evaluate s c j).academic_profile_score
             (TrustEvaluationFramework.evaluate s c j).emotional.score)
        (min (TrustEvaluationFramework.evaluate s c j).college_match_score
             (TrustEvaluationFramework.evaluate s c j).budget_alignment_score) ≤
      (TrustEvaluationFramework.evaluate s c j).overall_score ∧
    (TrustEvaluationFramework.evaluate s c j).overall_score ≤
      max (max (TrustEvaluationFramework.evaluate s c j).academic_profile_score
               (TrustEvaluationFramework.evaluate s c j).emotional.score)
          (max (TrustEvaluationFramework.evaluate s c j).college_match_score
               (TrustEvaluationFramework.evaluate s c j).budget_alignment_score) := by
  rw [evaluate_overall, evaluate_academic, evaluate_emotional,
    evaluate_college_match, evaluate_budget]
  exact weighted_avg_between _ _ _ _

/-- C6: for a college with GPA data, `GPAEvaluator.evaluate` realizes the
documented threshold table on the GPA difference, and is monotone
non-decreasing in that difference. -/
theorem C6_gpa_table_monotone (s sB : StudentProfile) (c : College)
    (h : c.average_gpa ≠ 0) :
    (GPAEvaluator.evaluate s c =
      (if s.gpa - c.average_gpa ≥ 0.5 then 90
       else if s.gpa - c.average_gpa ≥ 0.3 then 80
       else if s.gpa - c.average_gpa ≥ 0 then 70
       else if s.gpa - c.average_gpa ≥ -0.3 then 60
       else if s.gpa - c.average_gpa ≥ -0.5 then 40
       else 20)) ∧
    (s.gpa - c.average_gpa ≤ sB.gpa - c.average_gpa →
      GPAEvaluator.evaluate s c ≤ GPAEvaluator.evaluate sB c) := by
  constructor
  · unfold GPAEvaluator.evaluate
    dsimp only
    rw [if_neg h]
  · intro hle
    unfold GPAEvaluator.evaluate
    dsimp only
    rw [if_neg h, if_neg h]
    split_ifs <;> linarith

/-- Witness for C6 at concrete inputs: GPA 3.8 vs 3.9 against average 3.3. -/
theorem C6_witness :
    GPAEvaluator.evaluate sampleStudent sampleCollege ≤
      GPAEvaluator.evaluate sampleStudentC sampleCollege :=
  (C6_gpa_table_monotone sampleStudent sampleStudentC sampleCollege
      (by norm_num [sampleCollege])).2
    (by norm_num [sampleStudent, sampleStudentC, sampleCollege])

/-- C7: missing data yields the neutral score 50: zero college average GPA
for the GPA evaluator, an empty major list on either side for the major-match
evaluator, an empty location preference or state for the location evaluator,
and a text matching no keyword of either list for each keyword evaluator. -/
theorem C7_neutral_defaults (s : StudentProfile) (c : College) (e : JournalEntry) :
    (c.average_gpa = 0 → GPAEvaluator.evaluate s c = 50) ∧
    (s.intended_majors = [] ∨ c.majors = [] → MajorMatchEvaluator.evaluate s c = 50) ∧
    (s.location_preference = "" ∨ c.state = "" →
      LocationPreferenceEvaluator.evaluate s c = 50) ∧
    ((∀ w ∈ positive_words ++ negative_words, containsSub (pyLower e.text) w = false) →
      SentimentEvaluator.evaluate e = 50) ∧
    ((∀ w ∈ uncertainty_words ++ certainty_words, containsSub (pyLower e.text) w = false) →
      UncertaintyEvaluator.evaluate e = 50) ∧
    ((∀ w ∈ agitation_words ++ calm_words, containsSub (pyLower e.text) w = false) →
      AgitationEvaluator.evaluate e = 50) := by
  refine ⟨?_, ?_, ?_, ?_, ?_, ?_⟩
  · intro h
    simp [GPAEvaluator.evaluate, h]
  · intro h
    rcases h with h | h <;> simp [MajorMatchEvaluator.evaluate, h]
  · intro h
    rcases h with h | h <;> simp [LocationPreferenceEvaluator.evaluate, h]
  · intro h
    have hp : positive_words.filter (fun word => containsSub (pyLower e.text) word) = [] := by
      rw [List.filter_eq_nil_iff]
      intro w hw
      simp [h w (List.mem_append_left _ hw)]
    have hn : negative_words.filter (fun word => containsSub (pyLower e.text) word) = [] := by
      rw [List.filter_eq_nil_iff]
      intro w hw
      simp [h w (List.mem_append_right _ hw)]
    simp [SentimentEvaluator.evaluate, hp, hn]
  · intro h
    have hp : uncertainty_words.filter (fun word => containsSub (pyLower e.text) word) = [] := by
      rw [List.filter_eq_nil_iff]
      intro w hw
      simp [h w (List.mem_append_left _ hw)]
    have hn : certainty_words.filter (fun word => containsSub (pyLower e.text) word) = [] := by
      rw [List.filter_eq_nil_iff]
      intro w hw
      simp [h w (List.mem_append_right _ hw)]
    simp [UncertaintyEvaluator.evaluate, hp, hn]
  · intro h
    have hp : agitation_words.filter (fun word => containsSub (pyLower e.text) word) = [] := by
      rw [List.filter_eq_nil_iff]
      intro w hw
      simp [h w (List.mem_append_left _ hw)]
    have hn : calm_words.filter (fun word => containsSub (pyLower e.text) word) = [] := by
      rw [List.filter_eq_nil_iff]
      intro w hw
      simp [h w (List.mem_append_right _ hw)]
    simp [AgitationEvaluator.evaluate, hp, hn]

/-- Witness for C7 at concrete fully-missing inputs. -/
theorem C7_witness :
    GPAEvaluator.evaluate emptyStudent emptyCollege = 50 ∧
    MajorMatchEvaluator.evaluate emptyStudent emptyCollege = 50 ∧
    LocationPreferenceEvaluator.evaluate emptyStudent emptyCollege = 50 ∧
    SentimentEvaluator.evaluate blandEntry = 50 ∧
    UncertaintyEvaluator.evaluate blandEntry = 50 ∧
    AgitationEvaluator.evaluate blandEntry = 50 :=
  ⟨(C7_neutral_defaults emptyStudent emptyCollege blandEntry).1 rfl,
   (C7_neutral_defaults emptyStudent emptyCollege blandEntry).2.1 (Or.inl rfl),
   (C7_neutral_defaults emptyStudent emptyCollege blandEntry).2.2.1 (Or.inl rfl),
   (C7_neutral_defaults emptyStudent emptyCollege blandEntry).2.2.2.1 (by decide),
   (C7_neutral_defaults emptyStudent emptyCollege blandEntry).2.2.2.2.1 (by decide),
   (C7_neutral_defaults emptyStudent emptyCollege blandEntry).2.2.2.2.2 (by decide)⟩

/-- C8: with no journal entries the emotional factor score is 100 (not the
neutral 50 default used elsewhere), each component is reported as 100, and no
halt is recommended. -/
theorem C8_empty_journal_emotional_100 (s : StudentProfile) (c : College) :
    (TrustEvaluationFramework.evaluate s c []).emotional.score = 100 ∧
    (TrustEvaluationFramework.evaluate s c []).emotional.sentiment = 100 ∧
    (TrustEvaluationFramework.evaluate s c []).emotional.uncertainty = 100 ∧
    (TrustEvaluationFramework.evaluate s c []).emotional.agitation = 100 ∧
    (TrustEvaluationFramework.evaluate s c []).halt_recommended = false := by
  refine ⟨rfl, rfl, rfl, rfl, ?_⟩
  rw [evaluate_halt]
  norm_num [EmotionalStateFactor.evaluate]

/-- C9: the emotional evaluation reads only the most recent journal entry, so
two non-empty journal lists with equal last entries give identical results. -/
theorem C9_only_last_entry_matters (s : StudentProfile) (c : College)
    (j jB : List JournalEntry) (h : j ≠ []) (hB : jB ≠ [])
    (hl : j.getLast? = jB.getLast?) :
    TrustEvaluationFramework.evaluate s c j =
      TrustEvaluationFramework.evaluate s c jB := by
  unfold TrustEvaluationFramework.evaluate EmotionalStateFactor.evaluate
  rw [hl]

/-- Witness for C9: a two-entry journal and the one-entry journal holding
just its last entry evaluate identically. -/
theorem C9_witness :
    TrustEvaluationFramework.evaluate sampleStudent sampleCollege [blandEntry, happyEntry] =
      TrustEvaluationFramework.evaluate sampleStudent sampleCollege [happyEntry] :=
  C9_only_last_entry_matters sampleStudent sampleCollege
    [blandEntry, happyEntry] [happyEntry] (by simp) (by simp) rfl

/-- C10: whenever `POST /api/students` succeeds with 201 and a created
student object, an immediate `GET /api/students/{id}` with the returned id
succeeds with 200 and returns that same object. -/
theorem C10_create_then_get (st : ApiState) (data : Option StudentData) (ts : String)
    (h : (create_student st data ts).status = 201) :
    ∃ r : StudentRecord, (create_student st data ts).body = some r ∧
      get_student (create_student st data ts).state r.id =
        ⟨200, some r, (create_student st data ts).state⟩ := by
  match data with
  | none => simp [create_student] at h
  | some d =>
    refine ⟨_, rfl, ?_⟩
    unfold get_student create_student
    dsimp only
    rw [dictGet_dictInsert]

/-- Witness for C10: creating a student in the empty store and fetching the
returned id returns the identical record. -/
theorem C10_witness :
    ∃ r : StudentRecord,
      (create_student ⟨[], []⟩ (some sampleCreateData) "2025-01-01T00:00:00Z").body = some r ∧
      get_student (create_student ⟨[], []⟩ (some sampleCreateData) "2025-01-01T00:00:00Z").state r.id =
        ⟨200, some r, (create_student ⟨[], []⟩ (some sampleCreateData) "2025-01-01T00:00:00Z").state⟩ :=
  C10_create_then_get ⟨[], []⟩ (some sampleCreateData) "2025-01-01T00:00:00Z" rfl
